import Mathlib

/-!
Verification of the switchboard-ngx web client's real-time layer, shallowly
embedded from `src/apps/web/src/hooks/useSocket.ts` and
`src/apps/web/src/App.tsx`.  Pure TypeScript fragments become Lean
functions; the stateful client is modelled by explicit state records and
step functions.  JavaScript `undefined`-able fields become `Option`,
JavaScript string/array truthiness is made explicit where the source
branches on it, and `JSON.stringify` of an object literal becomes an
ordered association list of keys (JS preserves insertion order).
-/

namespace Switchboard

/-- JSON values that appear in the client frames (strings, booleans,
arrays of strings are the only shapes the client ever sends). -/
inductive Jval where
  | str (s : String)
  | jbool (b : Bool)
  | arr (xs : List String)
  deriving Repr, DecidableEq

/-- A serialized JSON object frame: keys with values, in insertion order,
as produced by `JSON.stringify` on an object literal. -/
abbrev Frame := List (String × Jval)

/-- The `ClientEvent` interface of `useSocket.ts` (lines 13–19): a type tag
plus optional fields.  `undefined` fields are `none`. -/
structure ClientEvent where
  type : String
  chat_id : Option String := none
  content : Option String := none
  is_typing : Option Bool := none
  models : Option (List String) := none
  deriving Repr, DecidableEq

/-- `JSON.stringify` applied to a `ClientEvent` object: present fields are
emitted in the insertion order used by the source's object literals
(`type`, `chat_id`, `content`, `is_typing`, then `models`, which is only
ever assigned after construction); `undefined` fields are omitted. -/
def ClientEvent.serialize (e : ClientEvent) : Frame :=
  [("type", Jval.str e.type)]
    ++ (match e.chat_id with | some c => [("chat_id", Jval.str c)] | none => [])
    ++ (match e.content with | some c => [("content", Jval.str c)] | none => [])
    ++ (match e.is_typing with | some b => [("is_typing", Jval.jbool b)] | none => [])
    ++ (match e.models with | some ms => [("models", Jval.arr ms)] | none => [])

/-- `subscribe` (useSocket.ts line 156): builds the subscribe event. -/
def subscribeEvent (chatId : String) : ClientEvent :=
  { type := "subscribe", chat_id := some chatId }

/-- `unsubscribe` (useSocket.ts line 160): builds the unsubscribe event. -/
def unsubscribeEvent (chatId : String) : ClientEvent :=
  { type := "unsubscribe", chat_id := some chatId }

/-- `sendTyping` (useSocket.ts line 172): builds the typing event. -/
def sendTypingEvent (chatId : String) (isTyping : Bool) : ClientEvent :=
  { type := "typing", chat_id := some chatId, is_typing := some isTyping }

/-- `sendMessage` (useSocket.ts lines 164–170): builds the message event;
the `models` field is assigned only when the argument is present and
non-empty (`models && models.length > 0`; a JS array is always truthy, so
the conjunction tests definedness and then length). -/
def sendMessageEvent (chatId content : String) (models : Option (List String)) :
    ClientEvent :=
  let event : ClientEvent := { type := "message", chat_id := some chatId, content := some content }
  match models with
  | some ms => if ms.length > 0 then { event with models := some ms } else event
  | none => event

/-- WebSocket ready states. -/
inductive ReadyState where
  | connecting
  | opened
  | closing
  | closed
  deriving Repr, DecidableEq

/-- The pieces of `SocketState` (useSocket.ts lines 7–11) that `send`
could touch.  `send` never calls `setState`, so modelling it over this
record shows the caller-visible state is untouched. -/
structure SocketSignalState where
  status : String
  error : Option String
  deriving Repr, DecidableEq

/-- `send` (useSocket.ts lines 147–154): transmits the serialized event
iff the socket exists and is OPEN (`socket?.readyState === WebSocket.OPEN`);
otherwise it only logs a warning.  Returns the transmitted frame (if any)
together with the signal state after the call, which is passed through
unchanged because `send` never updates it. -/
def send (sock : Option ReadyState) (st : SocketSignalState) (e : ClientEvent) :
    Option Frame × SocketSignalState :=
  if sock = some ReadyState.opened then
    (some e.serialize, st)
  else
    (none, st)

/-! ## Data model of `App.tsx` -/

/-- Message roles (`types/chat.ts`). -/
inductive Role where
  | user
  | assistant
  | system
  deriving Repr, DecidableEq

/-- The `Message` interface of `types/chat.ts`, restricted to the fields
the handlers read, plus the `pending` flag that placeholder messages carry
in `App.tsx`. -/
structure Message where
  id : Option String := none
  chat_id : Option String := none
  role : Role
  content : String
  model : Option String := none
  pending : Bool := false
  deriving Repr, DecidableEq

/-- The `Chat` interface of `types/chat.ts`, restricted to the fields the
handlers read. -/
structure Chat where
  id : String
  title : String
  messages : List Message
  deriving Repr, DecidableEq

/-- Per-model status used in the `modelStatuses` signal of `App.tsx`. -/
inductive ModelStatus where
  | idle
  | pending
  deriving Repr, DecidableEq

/-- The `modelStatuses` record: an association list keyed by model id,
first binding wins (JS objects have unique keys; our constructions keep
keys distinct). -/
abbrev Statuses := List (String × ModelStatus)

/-- Lookup in a `Statuses` record (`prev[key]`). -/
def Statuses.get (st : Statuses) (k : String) : Option ModelStatus :=
  (st.find? (fun p => p.1 = k)).map Prod.snd

/-- JS truthiness of a possibly-undefined string: `undefined` and the
empty string are falsy. -/
def strTruthy : Option String → Bool
  | none => false
  | some s => s ≠ ""

/-- The `ServerEvent`s of `useSocket.ts` (lines 21–32) that the
`App.tsx` WebSocket effect distinguishes: `message` events, `error`
events, and everything else (`hello`, `subscribed`, `unsubscribed`,
`typing`), which the effect only logs. -/
inductive ServerEvent where
  | message (chat_id : Option String) (message_id : Option String)
      (content : Option String) (model : Option String)
  | error (message : Option String)
  | other
  deriving Repr, DecidableEq

/-- The client state the WebSocket effect of `App.tsx` (lines 1109–1249)
reads and writes: the chat list, the selected chat id, the per-model
statuses, the loading flag and the error banner. -/
structure ClientState where
  chats : List Chat
  currentChatId : Option String
  statuses : Statuses
  loading : Bool
  error : Option String
  deriving Repr, DecidableEq

/-- `chats().find(c => c.id === currentId)` (App.tsx line 1137). -/
def findChat (chats : List Chat) (cid : String) : Option Chat :=
  chats.find? (fun c => c.id = cid)

/-- `currentChat?.messages.filter(m => m.role === 'user').pop()`
(App.tsx lines 1153–1155): the most recent user-role message. -/
def lastUserMessage (msgs : List Message) : Option Message :=
  (msgs.filter (fun m => m.role = Role.user)).getLast?

/-- The echo-suppression test of the message branch (App.tsx lines
1141–1160): skip when a message with the same id already exists
(`m.id === message.message_id`, JS `===` on possibly-undefined values),
or when the incoming content equals the last user message's content
(`lastUserMessage && lastUserMessage.content === message.content`). -/
def suppressEcho (chat : Option Chat) (messageId : Option String)
    (content : Option String) : Bool :=
  (match chat with
   | some c => c.messages.any (fun m => m.id = messageId)
   | none => false)
  || (match chat with
      | some c =>
        match lastUserMessage c.messages with
        | some u => content = some u.content
        | none => false
      | none => false)

/-- The assistant `newMessage` object built at App.tsx lines 1166–1175. -/
def newMessageOf (chatId : Option String) (messageId : Option String)
    (content : Option String) (model : Option String) : Message :=
  { id := messageId
    chat_id := chatId
    role := Role.assistant
    content := content.getD ""
    model := model
    pending := false }

/-- Remove the first pending placeholder for the incoming model
(App.tsx lines 1185–1193): only done when `newMessage.model` is truthy. -/
def removePlaceholder (msgs : List Message) (model : Option String) :
    List Message :=
  if strTruthy model then
    match msgs.findIdx? (fun m => m.pending && m.model = model) with
    | some i => msgs.eraseIdx i
    | none => msgs
  else
    msgs

/-- The `setChats` callback of the message branch (App.tsx lines
1179–1203): the current chat gets the placeholder removed and the new
message appended; every other chat is returned unchanged. -/
def appendMessageToChats (chats : List Chat) (currentId : String)
    (m : Message) : List Chat :=
  chats.map (fun chat =>
    if chat.id = currentId then
      { chat with messages := removePlaceholder chat.messages m.model ++ [m] }
    else
      chat)

/-- The `setModelStatuses` callback of the message branch (App.tsx lines
1208–1213): if the incoming model is absent from the record or already
idle the record is returned unchanged, otherwise exactly that model's
entry is set to idle. -/
def statusIdleFor (st : Statuses) (model : String) : Statuses :=
  if (Statuses.get st model = none) || (Statuses.get st model = some ModelStatus.idle) then
    st
  else
    st.map (fun p => if p.1 = model then (p.1, ModelStatus.idle) else p)

/-- The `setModelStatuses` callback of the error branch (App.tsx lines
1227–1233): every key is reset to idle. -/
def statusesAllIdle (st : Statuses) : Statuses :=
  st.map (fun p => (p.1, ModelStatus.idle))

/-- The `setChats` callback of the error branch (App.tsx lines
1234–1239): every chat has its pending messages filtered out. -/
def dropPendingEverywhere (chats : List Chat) : List Chat :=
  chats.map (fun chat =>
    { chat with messages := chat.messages.filter (fun m => !m.pending) })

/-- The WebSocket event handling effect of `App.tsx` (lines 1109–1249) as
a state transformer.  With no selected chat the event is ignored.  A
`message` event first stops loading; if its `chat_id` matches the selected
chat it is appended unless suppressed as an optimistic echo, and the
incoming model's status (when truthy) is reset to idle.  An `error` event
sets the error banner, stops loading, resets every status to idle and
strips pending placeholders from every chat.  Any other event only logs. -/
def handleSocketEvent (s : ClientState) (ev : ServerEvent) : ClientState :=
  match s.currentChatId with
  | none => s
  | some currentId =>
    match ev with
    | ServerEvent.message chatId messageId content model =>
      let s := { s with loading := false }
      if chatId = some currentId then
        let currentChat := findChat s.chats currentId
        if suppressEcho currentChat messageId content then
          s
        else
          let m := newMessageOf chatId messageId content model
          let s := { s with chats := appendMessageToChats s.chats currentId m }
          match model with
          | some md =>
            if md ≠ "" then { s with statuses := statusIdleFor s.statuses md } else s
          | none => s
      else
        s
    | ServerEvent.error msg =>
      { s with
        error := some
          (if strTruthy msg then msg.getD "" else
            "An unexpected error occurred while processing the request.")
        loading := false
        statuses := statusesAllIdle s.statuses
        chats := dropPendingEverywhere s.chats }
    | ServerEvent.other => s

/-! ## `handleSubmit` and mention deduplication -/

/-- Inner loop of the insertion-order deduplication: `seen` is the JS
`Set` accumulated so far. -/
def dedupGo (seen : List String) : List String → List String
  | [] => []
  | x :: xs => if x ∈ seen then dedupGo seen xs else x :: dedupGo (x :: seen) xs

/-- Insertion-order deduplication, keeping the first occurrence of each
element.  This is both the `seen`-`Set` filter that ends
`resolveModelMentions` (App.tsx lines 929–934) and the semantics of
`Array.from(new Set(xs))` in `handleSubmit` (lines 970–972): a JS `Set`
iterates in insertion order, so both keep first occurrences. -/
def orderedDedup (xs : List String) : List String :=
  dedupGo [] xs

/-- JavaScript `String.prototype.trim()`: strips leading and trailing
whitespace.  Written over the character list so that it evaluates inside
the kernel. -/
def jsTrim (s : String) : String :=
  String.mk (((s.data.dropWhile Char.isWhitespace).reverse.dropWhile
    Char.isWhitespace).reverse)

/-- Connection status values of `useSocket.ts` line 5. -/
inductive ConnectionStatus where
  | connecting
  | connected
  | disconnected
  | errored
  deriving Repr, DecidableEq

/-- The inputs `handleSubmit` (App.tsx lines 953–1106) reads.  The regex
scan of `resolveModelMentions` is abstracted by its output: the cleaned
prompt and the raw (pre-deduplication) resolved mention list; the final
deduplication step of `resolveModelMentions` is applied inside the model.
`nowTag` stands for the `Date.now()` stamp used in placeholder ids. -/
structure SubmitInput where
  hasSession : Bool
  cleanedPrompt : String
  rawMentions : List String
  selectedModels : List String
  availableModelIds : List String
  defaultModel : String
  currentChatId : Option String
  connectionStatus : ConnectionStatus
  subscribedId : Option String
  chats : List Chat
  statuses : Statuses
  nowTag : String
  deriving Repr

/-- What a run of `handleSubmit` produced.  `error` records the message
passed to `setError` on a rejection; `frame` is the `ClientEvent` built by
`socket.sendMessage` when a send happened; `chats` and `statuses` are the
signal values after the run; `retriedWithNewChat` marks the
no-current-chat path that creates a chat and re-enters. -/
structure SubmitResult where
  error : Option String
  frame : Option ClientEvent
  chats : List Chat
  statuses : Statuses
  retriedWithNewChat : Bool
  deriving Repr

/-- A rejection: signals the error, leaves chats and statuses as they
were, sends nothing. -/
def SubmitResult.rejected (i : SubmitInput) (msg : String) : SubmitResult :=
  { error := some msg, frame := none, chats := i.chats, statuses := i.statuses
    retriedWithNewChat := false }

/-- The optimistic user message (App.tsx lines 1032–1037; the source also
sets `user_id` and `timestamp`, which the handlers never compare). -/
def userMessageOf (trimmed : String) : Message :=
  { role := Role.user, content := trimmed }

/-- One pending placeholder (App.tsx lines 1039–1048). -/
def placeholderOf (currentId nowTag : String) (idx : Nat) (modelId : String) :
    Message :=
  { id := some ("pending-" ++ modelId ++ "-" ++ nowTag ++ "-" ++ toString idx)
    chat_id := some currentId
    role := Role.assistant
    content := ""
    model := some modelId
    pending := true }

/-- The new chat title (App.tsx line 1051): first prompt becomes the
title, truncated to 30 characters with an ellipsis. -/
def titleAfterSubmit (chat : Chat) (trimmed : String) : String :=
  if chat.messages.length = 0 then
    (trimmed.take 30) ++ (if trimmed.length > 30 then "..." else "")
  else
    chat.title

/-- Target-model selection of `handleSubmit` (App.tsx lines 970–996):
deduplicated mentions win; otherwise the deduplicated non-blank checked
selection; otherwise the default model if available, else the first
available model. -/
def targetModelsOf (i : SubmitInput) : List String :=
  let mentions := orderedDedup i.rawMentions
  let baseSelection := orderedDedup
    (i.selectedModels.filter (fun id => id ≠ "" && (jsTrim id).length > 0))
  let targetModels₀ := if mentions.length > 0 then mentions else baseSelection
  if targetModels₀.length = 0 then
    let fallbackId :=
      if i.defaultModel ≠ "" && i.availableModelIds.contains i.defaultModel then
        some i.defaultModel
      else
        i.availableModelIds.head?
    match fallbackId with
    | some fid => [fid]
    | none => targetModels₀
  else
    targetModels₀

/-- `handleSubmit` (App.tsx lines 953–1106) as a function from its inputs
to its observable effects.  Mirrors the source's guard order: session,
empty trimmed prompt, empty model selection, missing current chat
(create-and-retry), connection status, subscription, then the optimistic
chat update, the pending statuses and the outgoing frame. -/
def handleSubmit (i : SubmitInput) : SubmitResult :=
  if !i.hasSession then
    SubmitResult.rejected i "Please sign in with GitHub first."
  else if (jsTrim i.cleanedPrompt) = "" then
    SubmitResult.rejected i "Please enter a prompt first."
  else if (targetModelsOf i).length = 0 then
    SubmitResult.rejected i "Select at least one model before sending a message."
  else
    match i.currentChatId with
    | none =>
      { error := none, frame := none, chats := i.chats, statuses := i.statuses
        retriedWithNewChat := true }
    | some currentId =>
      if i.connectionStatus ≠ ConnectionStatus.connected then
        SubmitResult.rejected i
          "Real-time connection not available. Please check your connection."
      else if some currentId ≠ i.subscribedId then
        SubmitResult.rejected i
          "Not subscribed to this chat yet. Please wait a moment and try again."
      else
        match findChat i.chats currentId with
        | none =>
          { error := none, frame := none, chats := i.chats, statuses := i.statuses
            retriedWithNewChat := false }
        | some updatedChat =>
          { error := none
            frame := some (sendMessageEvent currentId (jsTrim i.cleanedPrompt)
              (some (targetModelsOf i)))
            chats := i.chats.map (fun chat =>
              if chat.id = currentId then
                { chat with
                  messages := updatedChat.messages
                    ++ [userMessageOf (jsTrim i.cleanedPrompt)]
                    ++ (targetModelsOf i).mapIdx
                        (fun idx mid => placeholderOf currentId i.nowTag idx mid)
                  title := titleAfterSubmit updatedChat (jsTrim i.cleanedPrompt) }
              else
                chat)
            statuses := (targetModelsOf i).map (fun id => (id, ModelStatus.pending))
            retriedWithNewChat := false }

/-! ## `connect`, stored sessions and the reconnect policy -/

/-- The connection-level state of `useSocket.ts`: the raw socket (its
ready state, `none` when null), the token captured at connect time, and
the status exposed through the signal. -/
structure ConnState where
  socket : Option ReadyState
  activeToken : Option String
  status : ConnectionStatus
  deriving Repr, DecidableEq

/-- `connect` (useSocket.ts lines 48–130) over the resolved token
(`providedToken ?? token?.() ?? null`).  Returns the new state paired with
whether a `new WebSocket` was constructed.  An open or connecting socket
under the same token short-circuits; a null token skips connection and
marks the state disconnected; otherwise any previous socket is closed and
a fresh socket is opened in the connecting state. -/
def connect (resolvedToken : Option String) (s : ConnState) : ConnState × Bool :=
  if (s.socket = some ReadyState.opened ∨ s.socket = some ReadyState.connecting)
      ∧ s.activeToken = resolvedToken then
    (s, false)
  else if resolvedToken.isNone then
    ({ s with activeToken := none, status := ConnectionStatus.disconnected }, false)
  else
    ({ socket := some ReadyState.connecting, activeToken := resolvedToken
       status := ConnectionStatus.connecting }, true)

/-- The stored session payload of `App.tsx` (lines 457–461), with
`expires_at` already converted to epoch milliseconds as
`new Date(parsed.expires_at).getTime()` does. -/
structure SessionData where
  token : String
  expiresAtMs : Int
  deriving Repr, DecidableEq

/-- `loadStoredSession` (App.tsx lines 490–512) over the stored item:
`none` means nothing stored, `some none` a stored item that fails to
parse, `some (some sd)` a parsed session.  Returns the session treated as
present, paired with whether the stored item was removed. -/
def loadStoredSession (stored : Option (Option SessionData)) (nowMs : Int) :
    Option SessionData × Bool :=
  match stored with
  | none => (none, false)
  | some none => (none, true)
  | some (some sd) =>
    if sd.expiresAtMs ≤ nowMs then (none, true) else (some sd, false)

/-- Reconnect bookkeeping of `useSocket.ts`: `attempts` is
`reconnectAttempts`, `timeoutDelay` the delay of the pending
`reconnectTimeout` if one is scheduled. -/
structure RState where
  socket : Option ReadyState
  activeToken : Option String
  status : ConnectionStatus
  attempts : Nat
  timeoutDelay : Option Nat
  deriving Repr, DecidableEq

/-- `maxReconnectAttempts` (useSocket.ts line 44). -/
def maxReconnectAttempts : Nat := 5

/-- `reconnectDelay` (useSocket.ts line 45). -/
def reconnectDelay : Nat := 1000

/-- `scheduleReconnect` (useSocket.ts lines 176–188): no-op when a timer
is already pending or the token is gone; otherwise increments the attempt
counter and schedules `reconnectDelay * 2 ^ (reconnectAttempts - 1)`
milliseconds out (with the just-incremented counter). -/
def scheduleReconnect (s : RState) : RState :=
  if s.timeoutDelay.isSome ∨ s.activeToken = none then
    s
  else
    { s with attempts := s.attempts + 1
             timeoutDelay := some (reconnectDelay * 2 ^ s.attempts) }

/-- `socket.onclose` (useSocket.ts lines 106–119): marks the state
disconnected and drops the socket; with no active token it stops; an
abnormal close (`code !== 1000`) below the attempt cap schedules a
reconnect. -/
def onClose (code : Nat) (s : RState) : RState :=
  let s := { s with status := ConnectionStatus.disconnected, socket := none }
  if s.activeToken = none then
    s
  else if code ≠ 1000 ∧ s.attempts < maxReconnectAttempts then
    scheduleReconnect s
  else
    s

/-- `socket.onopen` (useSocket.ts lines 84–88): connected, counter reset. -/
def onOpen (s : RState) : RState :=
  { s with status := ConnectionStatus.connected, attempts := 0 }

/-- The reconnect timer firing (useSocket.ts lines 184–187): the timer
slot empties and `connect(activeToken)` runs, which either opens a fresh
connecting socket or (token gone meanwhile) marks the state disconnected;
either way the attempt counter is untouched. -/
def timerFire (s : RState) : RState :=
  let s := { s with timeoutDelay := none }
  match s.activeToken with
  | none => { s with status := ConnectionStatus.disconnected }
  | some _ =>
    if s.socket = some ReadyState.opened ∨ s.socket = some ReadyState.connecting then
      s
    else
      { s with socket := some ReadyState.connecting
               status := ConnectionStatus.connecting }

/-- Socket lifecycle events that drive the reconnect bookkeeping. -/
inductive SockEv where
  | close (code : Nat)
  | sockOpen
  | timer
  deriving Repr, DecidableEq

/-- One lifecycle step. -/
def stepEv (s : RState) (e : SockEv) : RState :=
  match e with
  | SockEv.close code => onClose code s
  | SockEv.sockOpen => onOpen s
  | SockEv.timer => timerFire s

/-- Number of reconnects scheduled along a run: a step schedules exactly
when it increments the attempt counter. -/
def countScheduled (s : RState) : List SockEv → Nat
  | [] => 0
  | e :: es =>
    (if (stepEv s e).attempts = s.attempts + 1 then 1 else 0)
      + countScheduled (stepEv s e) es

/-- Running a list of lifecycle events. -/
def runEvents (s : RState) : List SockEv → RState
  | [] => s
  | e :: es => runEvents (stepEv s e) es

/-! ## Theorems -/

/-- C1: for every chat id `c`, `subscribe(c)` sends exactly
`{"type":"subscribe","chat_id":c}`, `unsubscribe(c)` sends
`{"type":"unsubscribe","chat_id":c}`, `sendTyping(c,b)` sends
`{"type":"typing","chat_id":c,"is_typing":b}`, and
`sendMessage(c,content,models)` sends
`{"type":"message","chat_id":c,"content":content}` where the `"models"`
key is present if and only if the `models` argument is a non-empty
array. -/
theorem c1_client_frames (c content : String) (b : Bool)
    (models : Option (List String)) :
    (subscribeEvent c).serialize
        = [("type", Jval.str "subscribe"), ("chat_id", Jval.str c)]
    ∧ (unsubscribeEvent c).serialize
        = [("type", Jval.str "unsubscribe"), ("chat_id", Jval.str c)]
    ∧ (sendTypingEvent c b).serialize
        = [("type", Jval.str "typing"), ("chat_id", Jval.str c),
           ("is_typing", Jval.jbool b)]
    ∧ (sendMessageEvent c content models).serialize
        = [("type", Jval.str "message"), ("chat_id", Jval.str c),
           ("content", Jval.str content)]
          ++ (match models with
              | some ms => if ms ≠ [] then [("models", Jval.arr ms)] else []
              | none => [])
    ∧ ("models" ∈ ((sendMessageEvent c content models).serialize.map Prod.fst)
        ↔ ∃ ms, models = some ms ∧ ms ≠ []) := by
  refine ⟨rfl, rfl, rfl, ?_, ?_⟩
  · rcases models with _ | ms
    · rfl
    · rcases ms with _ | ⟨x, xs⟩ <;>
        simp [sendMessageEvent, ClientEvent.serialize]
  · rcases models with _ | ms
    · simp [sendMessageEvent, ClientEvent.serialize]
    · rcases ms with _ | ⟨x, xs⟩ <;>
        simp [sendMessageEvent, ClientEvent.serialize]

/-- C9: `send` transmits a client event only when the socket exists and
is OPEN; in every other state the event is discarded — nothing is
transmitted, and the caller-visible socket state (hence any queue or
error surface) is untouched. -/
theorem c9_send_only_when_open (sock : Option ReadyState)
    (st : SocketSignalState) (e : ClientEvent) :
    ((send sock st e).1 = some e.serialize ↔ sock = some ReadyState.opened)
    ∧ ((send sock st e).1 = none ↔ sock ≠ some ReadyState.opened)
    ∧ (send sock st e).2 = st := by
  by_cases h : sock = some ReadyState.opened <;> simp [send, h]

theorem mem_dedupGo (a : String) :
    ∀ (seen xs : List String), a ∈ dedupGo seen xs ↔ a ∈ xs ∧ a ∉ seen := by
  intro seen xs
  induction xs generalizing seen with
  | nil => simp [dedupGo]
  | cons x xs ih =>
    by_cases hx : x ∈ seen
    · rw [dedupGo, if_pos hx, ih]
      constructor
      · rintro ⟨hm, hs⟩
        exact ⟨List.mem_cons_of_mem _ hm, hs⟩
      · rintro ⟨hm, hs⟩
        rcases List.mem_cons.mp hm with rfl | hm
        · exact absurd hx hs
        · exact ⟨hm, hs⟩
    · rw [dedupGo, if_neg hx]
      constructor
      · intro hm
        rcases List.mem_cons.mp hm with rfl | hm
        · exact ⟨List.mem_cons_self _ _, hx⟩
        · rw [ih] at hm
          refine ⟨List.mem_cons_of_mem _ hm.1, fun hs => hm.2 ?_⟩
          exact List.mem_cons_of_mem _ hs
      · rintro ⟨hm, hs⟩
        by_cases hax : a = x
        · exact hax ▸ List.mem_cons_self _ _
        · rcases List.mem_cons.mp hm with rfl | hm
          · exact absurd rfl hax
          · refine List.mem_cons_of_mem _ ?_
            rw [ih]
            refine ⟨hm, fun hcs => ?_⟩
            rcases List.mem_cons.mp hcs with rfl | h2
            · exact hax rfl
            · exact hs h2

theorem dedupGo_sublist :
    ∀ (seen xs : List String), List.Sublist (dedupGo seen xs) xs := by
  intro seen xs
  induction xs generalizing seen with
  | nil => simp [dedupGo]
  | cons x xs ih =>
    by_cases hx : x ∈ seen
    · rw [dedupGo, if_pos hx]
      exact (ih seen).cons x
    · rw [dedupGo, if_neg hx]
      exact (ih (x :: seen)).cons₂ x

theorem dedupGo_nodup :
    ∀ (seen xs : List String), (dedupGo seen xs).Nodup := by
  intro seen xs
  induction xs generalizing seen with
  | nil => simp [dedupGo]
  | cons x xs ih =>
    by_cases hx : x ∈ seen
    · rw [dedupGo, if_pos hx]
      exact ih seen
    · rw [dedupGo, if_neg hx]
      refine List.nodup_cons.mpr ⟨fun hmem => ?_, ih (x :: seen)⟩
      exact ((mem_dedupGo x (x :: seen) xs).mp hmem).2 (List.mem_cons_self x seen)

theorem dedupGo_eq_filter :
    ∀ (xs seen : List String),
      dedupGo seen xs = (dedupGo [] xs).filter (fun a => !(seen.contains a)) := by
  intro xs
  induction xs with
  | nil => intro seen; simp [dedupGo]
  | cons z zs ih =>
    intro seen
    have hD : dedupGo [] (z :: zs) = z :: dedupGo [z] zs := by
      rw [dedupGo, if_neg (List.not_mem_nil z)]
    by_cases hz : z ∈ seen
    · have hzc : (!(seen.contains z)) = false := by simp [hz]
      rw [dedupGo, if_pos hz, hD, List.filter_cons, hzc,
          if_neg (show ¬(false = true) by decide), ih seen, ih [z],
          List.filter_filter]
      refine List.filter_congr ?_
      intro a _
      by_cases haz : a = z
      · subst haz; simp [hz]
      · simp [haz]
    · have hzc : (!(seen.contains z)) = true := by simp [hz]
      rw [dedupGo, if_neg hz, hD, List.filter_cons, hzc,
          if_pos (show true = true from rfl), ih (z :: seen), ih [z],
          List.filter_filter]
      congr 1
      refine List.filter_congr ?_
      intro a _
      by_cases haz : a = z
      · subst haz; simp
      · simp [haz, Bool.and_comm]

theorem handleSubmit_frame_statuses (i : SubmitInput) :
    ((handleSubmit i).frame = none ∧ (handleSubmit i).statuses = i.statuses)
    ∨ (∃ currentId, i.currentChatId = some currentId
        ∧ (handleSubmit i).frame = some (sendMessageEvent currentId
            (jsTrim i.cleanedPrompt) (some (targetModelsOf i)))
        ∧ (handleSubmit i).statuses
            = (targetModelsOf i).map (fun id => (id, ModelStatus.pending))
        ∧ (targetModelsOf i).length ≠ 0) := by
  rw [handleSubmit]
  split
  · exact Or.inl ⟨rfl, rfl⟩
  · split
    · exact Or.inl ⟨rfl, rfl⟩
    · split
      · exact Or.inl ⟨rfl, rfl⟩
      · rename_i hlen
        split
        · exact Or.inl ⟨rfl, rfl⟩
        · rename_i currentId heq
          split
          · exact Or.inl ⟨rfl, rfl⟩
          · split
            · exact Or.inl ⟨rfl, rfl⟩
            · split
              · exact Or.inl ⟨rfl, rfl⟩
              · exact Or.inr ⟨currentId, heq, rfl, rfl, hlen⟩

/-- C2: the target-model list attached to an outgoing message frame
contains each model id at most once.  The deduplication applied to
resolved mentions (and to the checked selection via `Array.from(new
Set(...))`) removes duplicates keeping the first occurrence in order
(conjuncts 1 and 2), every possible target-model list is duplicate-free
(conjunct 3), and the frame built by `handleSubmit` carries exactly that
list (conjunct 4), so a model requested twice behaves as requested
once. -/
theorem c2_dedup_model_targets :
    (∀ raw : List String,
        (orderedDedup raw).Nodup
        ∧ List.Sublist (orderedDedup raw) raw
        ∧ (∀ a, a ∈ orderedDedup raw ↔ a ∈ raw))
    ∧ (∀ (x : String) (xs : List String),
        orderedDedup (x :: xs)
          = x :: (orderedDedup xs).filter (fun a => !(a == x)))
    ∧ (∀ i : SubmitInput, (targetModelsOf i).Nodup)
    ∧ (∀ (i : SubmitInput) (ev : ClientEvent),
        (handleSubmit i).frame = some ev → ev.models = some (targetModelsOf i)) := by
  have hnodup : ∀ raw : List String, (orderedDedup raw).Nodup :=
    fun raw => dedupGo_nodup [] raw
  refine ⟨fun raw => ⟨hnodup raw, dedupGo_sublist [] raw, fun a => ?_⟩, ?_, ?_, ?_⟩
  · simp [orderedDedup, mem_dedupGo]
  · intro x xs
    rw [orderedDedup, dedupGo, if_neg (List.not_mem_nil x),
        dedupGo_eq_filter xs [x]]
    rw [orderedDedup]
    congr 1
    refine List.filter_congr ?_
    intro a _
    by_cases haz : a = x
    · subst haz; simp [List.contains]
    · simp [haz, List.contains]
  · intro i
    unfold targetModelsOf
    simp only []
    by_cases hm : (orderedDedup i.rawMentions).length > 0
    · rw [if_pos hm, if_neg (by omega :
        ¬(orderedDedup i.rawMentions).length = 0)]
      exact hnodup _
    · rw [if_neg hm]
      by_cases hb : (orderedDedup (i.selectedModels.filter
          (fun id => id ≠ "" && (jsTrim id).length > 0))).length = 0
      · rw [if_pos hb]
        cases hfb : (if i.defaultModel ≠ ""
            && i.availableModelIds.contains i.defaultModel then
            some i.defaultModel else i.availableModelIds.head?) with
        | none => simp only [hfb]; exact hnodup _
        | some fid => simp only [hfb]; exact List.nodup_singleton _
      · rw [if_neg hb]
        exact hnodup _
  · intro i ev h
    rcases handleSubmit_frame_statuses i with ⟨hf, _⟩ | ⟨currentId, _, hf, _, hlen⟩
    · rw [hf] at h
      exact absurd h (by simp)
    · rw [hf] at h
      injection h with h
      subst h
      simp [sendMessageEvent, Nat.pos_of_ne_zero hlen]

/-- C8: a message frame is sent only for non-empty content: when the
prompt, after mention removal and trimming, is empty, `handleSubmit`
reports "Please enter a prompt first." to the sender and performs no
send — no frame is built, no placeholder messages are added to any chat
and no pending statuses are produced. -/
theorem c8_empty_prompt_rejected (i : SubmitInput)
    (hs : i.hasSession = true) (ht : (jsTrim i.cleanedPrompt) = "") :
    (handleSubmit i).error = some "Please enter a prompt first."
    ∧ (handleSubmit i).frame = none
    ∧ (handleSubmit i).chats = i.chats
    ∧ (handleSubmit i).statuses = i.statuses := by
  rw [handleSubmit]
  simp [hs, ht, SubmitResult.rejected]

/-- Witness for C8 at a concrete empty-prompt input. -/
theorem c8_empty_prompt_rejected_witness :
    (handleSubmit
      { hasSession := true, cleanedPrompt := "", rawMentions := []
        selectedModels := [], availableModelIds := [], defaultModel := ""
        currentChatId := none, connectionStatus := ConnectionStatus.disconnected
        subscribedId := none, chats := [], statuses := [], nowTag := "0" }).error
      = some "Please enter a prompt first."
    ∧ (handleSubmit
      { hasSession := true, cleanedPrompt := "", rawMentions := []
        selectedModels := [], availableModelIds := [], defaultModel := ""
        currentChatId := none, connectionStatus := ConnectionStatus.disconnected
        subscribedId := none, chats := [], statuses := [], nowTag := "0" }).frame
      = none
    ∧ (handleSubmit
      { hasSession := true, cleanedPrompt := "", rawMentions := []
        selectedModels := [], availableModelIds := [], defaultModel := ""
        currentChatId := none, connectionStatus := ConnectionStatus.disconnected
        subscribedId := none, chats := [], statuses := [], nowTag := "0" }).chats
      = []
    ∧ (handleSubmit
      { hasSession := true, cleanedPrompt := "", rawMentions := []
        selectedModels := [], availableModelIds := [], defaultModel := ""
        currentChatId := none, connectionStatus := ConnectionStatus.disconnected
        subscribedId := none, chats := [], statuses := [], nowTag := "0" }).statuses
      = [] :=
  c8_empty_prompt_rejected _ rfl (by decide)

/-- Witness for C2 at a concrete input whose submit reaches the send:
the mention "m1" requested twice yields a frame targeting it once. -/
theorem c2_dedup_model_targets_witness :
    (sendMessageEvent "c1" "hi" (some ["m1", "m2"])).models
      = some (targetModelsOf
        { hasSession := true, cleanedPrompt := "hi"
          rawMentions := ["m1", "m1", "m2"], selectedModels := []
          availableModelIds := ["m1"], defaultModel := ""
          currentChatId := some "c1"
          connectionStatus := ConnectionStatus.connected
          subscribedId := some "c1"
          chats := [{ id := "c1", title := "t", messages := [] }]
          statuses := [], nowTag := "0" }) :=
  c2_dedup_model_targets.2.2.2
    { hasSession := true, cleanedPrompt := "hi"
      rawMentions := ["m1", "m1", "m2"], selectedModels := []
      availableModelIds := ["m1"], defaultModel := ""
      currentChatId := some "c1"
      connectionStatus := ConnectionStatus.connected
      subscribedId := some "c1"
      chats := [{ id := "c1", title := "t", messages := [] }]
      statuses := [], nowTag := "0" }
    (sendMessageEvent "c1" "hi" (some ["m1", "m2"]))
    (by decide)

theorem get_map_pending (m : String) :
    ∀ l : List String, m ∈ l →
      Statuses.get (l.map (fun id => (id, ModelStatus.pending))) m
        = some ModelStatus.pending := by
  intro l
  induction l with
  | nil => intro h; simp at h
  | cons x xs ih =>
    intro hm
    by_cases hx : x = m
    · subst hx
      simp [Statuses.get, List.find?]
    · have hmx : m ∈ xs := by
        rcases List.mem_cons.mp hm with h | h
        · exact absurd h.symm hx
        · exact h
      simpa [Statuses.get, List.find?, hx] using ih hmx

theorem get_mapIdle (m : String) :
    ∀ st : Statuses,
      Statuses.get
          (st.map (fun p => if p.1 = m then (p.1, ModelStatus.idle) else p)) m
        = (Statuses.get st m).map (fun _ => ModelStatus.idle) := by
  intro st
  induction st with
  | nil => simp [Statuses.get]
  | cons p ps ih =>
    by_cases hp : p.1 = m
    · simp [Statuses.get, List.find?, hp]
    · simp only [Statuses.get, List.map_cons, if_neg hp] at ih ⊢
      rw [List.find?_cons_of_neg, List.find?_cons_of_neg]
      · exact ih
      · simp [hp]
      · simp [hp]

theorem get_mapIdle_other (m m' : String) (hne : m' ≠ m) :
    ∀ st : Statuses,
      Statuses.get
          (st.map (fun p => if p.1 = m then (p.1, ModelStatus.idle) else p)) m'
        = Statuses.get st m' := by
  intro st
  induction st with
  | nil => simp [Statuses.get]
  | cons p ps ih =>
    by_cases hp : p.1 = m
    · have hp' : ¬p.1 = m' := by
        rw [hp]
        exact fun h => hne h.symm
      simp only [Statuses.get, List.map_cons, if_pos hp] at ih ⊢
      rw [List.find?_cons_of_neg, List.find?_cons_of_neg]
      · exact ih
      · simp [hp']
      · simp [hp']
    · by_cases hp' : p.1 = m'
      · simp only [Statuses.get, List.map_cons, if_neg hp]
        rw [List.find?_cons_of_pos, List.find?_cons_of_pos]
        · simp [hp']
        · simp [hp']
      · simp only [Statuses.get, List.map_cons, if_neg hp] at ih ⊢
        rw [List.find?_cons_of_neg, List.find?_cons_of_neg]
        · exact ih
        · simp [hp']
        · simp [hp']

theorem statusIdleFor_same (st : Statuses) (m : String)
    (h : Statuses.get st m = some ModelStatus.pending) :
    Statuses.get (statusIdleFor st m) m = some ModelStatus.idle := by
  rw [statusIdleFor, if_neg (by simp [h])]
  rw [get_mapIdle, h]
  rfl

theorem statusIdleFor_other (st : Statuses) (m m' : String) (hne : m' ≠ m) :
    Statuses.get (statusIdleFor st m) m' = Statuses.get st m' := by
  rw [statusIdleFor]
  split
  · rfl
  · exact get_mapIdle_other m m' hne st

/-- C7: per-turn pending bookkeeping is per model.  When a prompt is sent,
every target model's status entry is set to pending (conjunct 1); a
message event tagged with model `m` (not echo-suppressed) resets exactly
`m`'s entry to idle (conjunct 2); and the reset leaves the entry of every
other model untouched, so siblings stay pending until their own
completion (conjunct 3). -/
theorem c7_pending_per_model :
    (∀ (i : SubmitInput) (ev : ClientEvent),
      (handleSubmit i).frame = some ev →
      ∀ m ∈ targetModelsOf i,
        Statuses.get (handleSubmit i).statuses m = some ModelStatus.pending)
    ∧ (∀ (s : ClientState) (cid : String) (mid content : Option String)
        (m : String),
        s.currentChatId = some cid → m ≠ "" →
        suppressEcho (findChat s.chats cid) mid content = false →
        Statuses.get s.statuses m = some ModelStatus.pending →
        Statuses.get (handleSocketEvent s
          (ServerEvent.message (some cid) mid content (some m))).statuses m
          = some ModelStatus.idle)
    ∧ (∀ (st : Statuses) (m m' : String), m' ≠ m →
        Statuses.get (statusIdleFor st m) m' = Statuses.get st m') := by
  refine ⟨?_, ?_, fun st m m' hne => statusIdleFor_other st m m' hne⟩
  · intro i ev h m hm
    rcases handleSubmit_frame_statuses i with ⟨hf, _⟩ | ⟨currentId, _, hf, hst, _⟩
    · rw [hf] at h
      exact absurd h (by simp)
    · rw [hst]
      exact get_map_pending m _ hm
  · intro s cid mid content m hcur hm hsup hpend
    simp only [handleSocketEvent, hcur, hsup]
    simp [hm]
    exact statusIdleFor_same s.statuses m hpend

/-- Witness for C7 at concrete inputs: a sent prompt marks its target
pending, a completion for "m1" resets it to idle, and resetting "b"
leaves "a" untouched. -/
theorem c7_pending_per_model_witness :
    Statuses.get (handleSubmit
      { hasSession := true, cleanedPrompt := "hi"
        rawMentions := ["m1", "m1", "m2"], selectedModels := []
        availableModelIds := ["m1"], defaultModel := ""
        currentChatId := some "c1"
        connectionStatus := ConnectionStatus.connected
        subscribedId := some "c1"
        chats := [{ id := "c1", title := "t", messages := [] }]
        statuses := [], nowTag := "0" }).statuses "m1"
      = some ModelStatus.pending
    ∧ Statuses.get (handleSocketEvent
        { chats := [{ id := "c1", title := "t", messages := [] }]
          currentChatId := some "c1"
          statuses := [("m1", ModelStatus.pending)]
          loading := true, error := none }
        (ServerEvent.message (some "c1") (some "id1") (some "hello")
          (some "m1"))).statuses "m1"
      = some ModelStatus.idle
    ∧ Statuses.get (statusIdleFor [("a", ModelStatus.pending)] "b") "a"
      = Statuses.get [("a", ModelStatus.pending)] "a" :=
  ⟨c7_pending_per_model.1
      { hasSession := true, cleanedPrompt := "hi"
        rawMentions := ["m1", "m1", "m2"], selectedModels := []
        availableModelIds := ["m1"], defaultModel := ""
        currentChatId := some "c1"
        connectionStatus := ConnectionStatus.connected
        subscribedId := some "c1"
        chats := [{ id := "c1", title := "t", messages := [] }]
        statuses := [], nowTag := "0" }
      (sendMessageEvent "c1" "hi" (some ["m1", "m2"]))
      (by decide) "m1" (by decide),
    c7_pending_per_model.2.1
      { chats := [{ id := "c1", title := "t", messages := [] }]
        currentChatId := some "c1"
        statuses := [("m1", ModelStatus.pending)]
        loading := true, error := none }
      "c1" (some "id1") (some "hello") "m1" rfl (by decide) (by decide)
      (by decide),
    c7_pending_per_model.2.2 [("a", ModelStatus.pending)] "b" "a" (by decide)⟩

theorem removePlaceholder_sublist (msgs : List Message) (model : Option String) :
    List.Sublist (removePlaceholder msgs model) msgs := by
  rw [removePlaceholder]
  split
  · split
    · exact List.eraseIdx_sublist _ _
    · exact List.Sublist.refl _
  · exact List.Sublist.refl _

theorem findChat_appendMessage (m : Message) :
    ∀ (chats : List Chat) (cid : String) (chat : Chat),
      findChat chats cid = some chat →
      findChat (appendMessageToChats chats cid m) cid
        = some { chat with
            messages := removePlaceholder chat.messages m.model ++ [m] } := by
  intro chats
  induction chats with
  | nil =>
    intro cid chat h
    simp [findChat] at h
  | cons c cs ih =>
    intro cid chat h
    by_cases hc : c.id = cid
    · rw [findChat, List.find?_cons_of_pos] at h
      · injection h with h
        subst h
        rw [appendMessageToChats]
        simp only [List.map_cons, if_pos hc]
        rw [findChat, List.find?_cons_of_pos]
        simp [hc]
      · simp [hc]
    · rw [findChat, List.find?_cons_of_neg] at h
      · rw [appendMessageToChats]
        simp only [List.map_cons, if_neg hc]
        rw [findChat, List.find?_cons_of_neg]
        · exact ih cid chat h
        · simp [hc]
      · simp [hc]

theorem handleSocketEvent_message_chats (s : ClientState) (cid : String)
    (mid content model : Option String)
    (hcur : s.currentChatId = some cid)
    (hsup : suppressEcho (findChat s.chats cid) mid content = false) :
    (handleSocketEvent s (ServerEvent.message (some cid) mid content model)).chats
      = appendMessageToChats s.chats cid
          (newMessageOf (some cid) mid content model) := by
  simp only [handleSocketEvent, hcur, hsup]
  rcases model with _ | md
  · simp
  · by_cases hmd : md ≠ "" <;> simp [hmd, newMessageOf]

/-- C4: for a message event addressed to the selected chat, the client
suppresses only the optimistic echo: the event is dropped exactly when a
message with the same id already exists or its content equals the most
recent user message's content; otherwise it is appended exactly once (the
updated chat's messages are the old ones, minus a consumed placeholder,
plus the new message, and exactly one message carries the event's id). -/
theorem c4_echo_suppression (s : ClientState) (cid : String) (chat : Chat)
    (mid content model : Option String)
    (hcur : s.currentChatId = some cid)
    (hfind : findChat s.chats cid = some chat) :
    (suppressEcho (some chat) mid content = true →
      (handleSocketEvent s
        (ServerEvent.message (some cid) mid content model)).chats = s.chats)
    ∧ (suppressEcho (some chat) mid content = false →
      ∃ chat', findChat (handleSocketEvent s
            (ServerEvent.message (some cid) mid content model)).chats cid
          = some chat'
        ∧ chat'.messages
            = removePlaceholder chat.messages model
              ++ [newMessageOf (some cid) mid content model]
        ∧ chat'.messages.countP (fun m => m.id = mid) = 1) := by
  constructor
  · intro hsup
    simp [handleSocketEvent, hcur, hfind, hsup]
  · intro hsup
    have hchats := handleSocketEvent_message_chats s cid mid content model hcur
      (by rw [hfind]; exact hsup)
    rw [hchats]
    refine ⟨_, findChat_appendMessage _ s.chats cid chat hfind, rfl, ?_⟩
    have hany : chat.messages.any (fun m => m.id = mid) = false := by
      have := hsup
      rw [suppressEcho] at this
      exact (Bool.or_eq_false_iff.mp this).1
    have hzero : chat.messages.countP (fun m => m.id = mid) = 0 := by
      rw [List.countP_eq_zero]
      intro a ha
      have := (List.any_eq_false.mp hany) a ha
      simpa using this
    have hrem : (removePlaceholder chat.messages model).countP
        (fun m => m.id = mid) = 0 := by
      have hle := List.Sublist.countP_le (p := fun m => decide (m.id = mid))
        (removePlaceholder_sublist chat.messages model)
      omega
    rw [List.countP_append]
    simp only [newMessageOf]
    rw [hrem]
    simp

/-- Witness for C4: a fresh assistant message for the selected chat is
appended exactly once, consuming the pending placeholder. -/
theorem c4_echo_suppression_witness :
    ∃ chat', findChat (handleSocketEvent
        { chats := [{ id := "c1", title := "t"
                      messages := [{ id := some "p1", chat_id := some "c1"
                                     role := Role.assistant, content := ""
                                     model := some "m1", pending := true }] }]
          currentChatId := some "c1", statuses := [], loading := true
          error := none }
        (ServerEvent.message (some "c1") (some "id9") (some "reply")
          (some "m1"))).chats "c1"
      = some chat'
    ∧ chat'.messages
        = removePlaceholder
            [{ id := some "p1", chat_id := some "c1"
               role := Role.assistant, content := ""
               model := some "m1", pending := true }] (some "m1")
          ++ [newMessageOf (some "c1") (some "id9") (some "reply") (some "m1")]
    ∧ chat'.messages.countP (fun m => m.id = some "id9") = 1 :=
  (c4_echo_suppression
    { chats := [{ id := "c1", title := "t"
                  messages := [{ id := some "p1", chat_id := some "c1"
                                 role := Role.assistant, content := ""
                                 model := some "m1", pending := true }] }]
      currentChatId := some "c1", statuses := [], loading := true
      error := none }
    "c1"
    { id := "c1", title := "t"
      messages := [{ id := some "p1", chat_id := some "c1"
                     role := Role.assistant, content := ""
                     model := some "m1", pending := true }] }
    (some "id9") (some "reply") (some "m1") rfl (by decide)).2 (by decide)

/-- C5: a message event whose `chat_id` differs from the selected chat
modifies no chat's message list (the handler leaves `chats` untouched),
and even when a message is processed, every chat other than the current
one is returned unchanged by the update — a broadcast for conversation v1
is never displayed in a chat v2 ≠ v1. -/
theorem c5_other_chats_unchanged :
    (∀ (s : ClientState) (cid : String) (chatId mid content model : Option String),
      s.currentChatId = some cid → chatId ≠ some cid →
      (handleSocketEvent s (ServerEvent.message chatId mid content model)).chats
        = s.chats)
    ∧ (∀ (chats : List Chat) (cid : String) (m : Message),
      List.Forall₂ (fun old new => old.id ≠ cid → new = old) chats
        (appendMessageToChats chats cid m)) := by
  constructor
  · intro s cid chatId mid content model hcur hne
    simp only [handleSocketEvent, hcur]
    rw [if_neg hne]
  · intro chats cid m
    induction chats with
    | nil => exact List.Forall₂.nil
    | cons c cs ih =>
      refine List.Forall₂.cons (fun hne => if_neg hne) ih

/-- Witness for C5: a message for chat "v1" leaves the state of a client
viewing chat "v2" untouched. -/
theorem c5_other_chats_unchanged_witness :
    (handleSocketEvent
      { chats := [{ id := "v2", title := "t", messages := [] }]
        currentChatId := some "v2", statuses := [], loading := false
        error := none }
      (ServerEvent.message (some "v1") (some "id1") (some "x") none)).chats
      = [{ id := "v2", title := "t", messages := [] }] :=
  c5_other_chats_unchanged.1
    { chats := [{ id := "v2", title := "t", messages := [] }]
      currentChatId := some "v2", statuses := [], loading := false
      error := none }
    "v2" (some "v1") (some "id1") (some "x") none rfl (by decide)

/-- Counterexample to C3 as stated: with sibling models "A" and "B" both
pending and a pending placeholder for "B", an error event reporting the
failure of "A" resets "B"'s status to idle and removes "B"'s
placeholder — the sibling's pending bookkeeping is not left intact. -/
theorem c3_sibling_not_intact_counterexample :
    Statuses.get (handleSocketEvent
      { chats := [{ id := "c1", title := "t"
                    messages := [{ id := some "pending-B", chat_id := some "c1"
                                   role := Role.assistant, content := ""
                                   model := some "B", pending := true }] }]
        currentChatId := some "c1"
        statuses := [("A", ModelStatus.pending), ("B", ModelStatus.pending)]
        loading := true, error := none }
      (ServerEvent.error (some "model A failed"))).statuses "B"
      = some ModelStatus.idle
    ∧ (handleSocketEvent
      { chats := [{ id := "c1", title := "t"
                    messages := [{ id := some "pending-B", chat_id := some "c1"
                                   role := Role.assistant, content := ""
                                   model := some "B", pending := true }] }]
        currentChatId := some "c1"
        statuses := [("A", ModelStatus.pending), ("B", ModelStatus.pending)]
        loading := true, error := none }
      (ServerEvent.error (some "model A failed"))).chats
      = [{ id := "c1", title := "t", messages := [] }] := by
  decide

/-- C3 amended: on an error event (with a chat selected) the client
clears the per-turn bookkeeping wholesale rather than per failed model:
every model status is reset to idle, every pending placeholder is removed
from every chat, loading stops, and the error banner is set; only this
client's local state changes. -/
theorem c3_error_clears_all_pending (s : ClientState) (msg : Option String)
    (cid : String) (hcur : s.currentChatId = some cid) :
    (∀ p ∈ (handleSocketEvent s (ServerEvent.error msg)).statuses,
        p.2 = ModelStatus.idle)
    ∧ (∀ c ∈ (handleSocketEvent s (ServerEvent.error msg)).chats,
        ∀ m ∈ c.messages, m.pending = false)
    ∧ (handleSocketEvent s (ServerEvent.error msg)).loading = false
    ∧ ((handleSocketEvent s (ServerEvent.error msg)).error).isSome = true := by
  simp only [handleSocketEvent, hcur]
  refine ⟨?_, ?_, trivial, rfl⟩
  · intro p hp
    rw [statusesAllIdle] at hp
    rcases List.mem_map.mp hp with ⟨q, _, rfl⟩
    rfl
  · intro c hc m hm
    rw [dropPendingEverywhere] at hc
    rcases List.mem_map.mp hc with ⟨d, _, rfl⟩
    simp only [List.mem_filter] at hm
    simpa using hm.2

/-- Witness for C3's amended statement at a concrete two-model state. -/
theorem c3_error_clears_all_pending_witness :
    (∀ p ∈ (handleSocketEvent
        { chats := [{ id := "c1", title := "t", messages := [] }]
          currentChatId := some "c1"
          statuses := [("A", ModelStatus.pending), ("B", ModelStatus.pending)]
          loading := true, error := none }
        (ServerEvent.error (some "boom"))).statuses,
        p.2 = ModelStatus.idle)
    ∧ (∀ c ∈ (handleSocketEvent
        { chats := [{ id := "c1", title := "t", messages := [] }]
          currentChatId := some "c1"
          statuses := [("A", ModelStatus.pending), ("B", ModelStatus.pending)]
          loading := true, error := none }
        (ServerEvent.error (some "boom"))).chats,
        ∀ m ∈ c.messages, m.pending = false)
    ∧ (handleSocketEvent
        { chats := [{ id := "c1", title := "t", messages := [] }]
          currentChatId := some "c1"
          statuses := [("A", ModelStatus.pending), ("B", ModelStatus.pending)]
          loading := true, error := none }
        (ServerEvent.error (some "boom"))).loading = false
    ∧ ((handleSocketEvent
        { chats := [{ id := "c1", title := "t", messages := [] }]
          currentChatId := some "c1"
          statuses := [("A", ModelStatus.pending), ("B", ModelStatus.pending)]
          loading := true, error := none }
        (ServerEvent.error (some "boom"))).error).isSome = true :=
  c3_error_clears_all_pending
    { chats := [{ id := "c1", title := "t", messages := [] }]
      currentChatId := some "c1"
      statuses := [("A", ModelStatus.pending), ("B", ModelStatus.pending)]
      loading := true, error := none }
    (some "boom") "c1" rfl

/-- C6: a connection attempt with no bearer credential is refused before
any socket is opened: `connect` with a null resolved token constructs no
WebSocket and leaves the state disconnected (conjunct 1, under the
invariant that a token-less state is already disconnected, which every
token-clearing path of the hook establishes), and a stored session whose
`expires_at` is not later than now is removed from storage and treated as
absent (conjunct 2). -/
theorem c6_no_credential_refused :
    (∀ s : ConnState,
      (s.activeToken = none → s.status = ConnectionStatus.disconnected) →
      (connect none s).2 = false
      ∧ (connect none s).1.status = ConnectionStatus.disconnected)
    ∧ (∀ (sd : SessionData) (nowMs : Int), sd.expiresAtMs ≤ nowMs →
      loadStoredSession (some (some sd)) nowMs = (none, true)) := by
  constructor
  · intro s hInv
    rw [connect]
    split
    · rename_i hguard
      exact ⟨rfl, hInv hguard.2⟩
    · exact ⟨rfl, rfl⟩
  · intro sd nowMs h
    simp [loadStoredSession, h]

/-- Witness for C6 at a concrete disconnected state and expired
session. -/
theorem c6_no_credential_refused_witness :
    (connect none
      { socket := none, activeToken := none
        status := ConnectionStatus.disconnected }).2 = false
    ∧ (connect none
      { socket := none, activeToken := none
        status := ConnectionStatus.disconnected }).1.status
      = ConnectionStatus.disconnected
    ∧ loadStoredSession (some (some { token := "tok", expiresAtMs := 5 })) 5
      = (none, true) :=
  ⟨(c6_no_credential_refused.1
      { socket := none, activeToken := none
        status := ConnectionStatus.disconnected } (fun _ => rfl)).1,
   (c6_no_credential_refused.1
      { socket := none, activeToken := none
        status := ConnectionStatus.disconnected } (fun _ => rfl)).2,
   c6_no_credential_refused.2 { token := "tok", expiresAtMs := 5 } 5
     (by decide)⟩

theorem stepEv_attempts (s : RState) (e : SockEv) (he : e ≠ SockEv.sockOpen) :
    (stepEv s e).attempts = s.attempts
    ∨ ((stepEv s e).attempts = s.attempts + 1
        ∧ s.attempts < maxReconnectAttempts) := by
  cases e with
  | sockOpen => exact absurd rfl he
  | timer =>
    left
    rw [stepEv, timerFire]
    cases ht : s.activeToken with
    | none => simp [ht]
    | some t =>
      simp only [ht]
      split <;> rfl
  | close code =>
    rw [stepEv, onClose]
    by_cases ha : s.activeToken = none
    · left
      rw [if_pos ha]
    · rw [if_neg ha]
      by_cases hc : code ≠ 1000 ∧ s.attempts < maxReconnectAttempts
      · rw [if_pos hc, scheduleReconnect]
        by_cases hd : s.timeoutDelay.isSome = true ∨ s.activeToken = none
        · left
          rw [if_pos hd]
        · right
          rw [if_neg hd]
          exact ⟨rfl, hc.2⟩
      · left
        rw [if_neg hc]

theorem countScheduled_le (evs : List SockEv) :
    ∀ s : RState, s.attempts ≤ maxReconnectAttempts →
      (∀ e ∈ evs, e ≠ SockEv.sockOpen) →
      s.attempts + countScheduled s evs ≤ maxReconnectAttempts := by
  induction evs with
  | nil =>
    intro s h _
    simpa [countScheduled] using h
  | cons e es ih =>
    intro s h hno
    have he : e ≠ SockEv.sockOpen := hno e (List.mem_cons_self _ _)
    have hes : ∀ x ∈ es, x ≠ SockEv.sockOpen :=
      fun x hx => hno x (List.mem_cons_of_mem _ hx)
    rw [countScheduled]
    rcases stepEv_attempts s e he with heq | ⟨heq, hlt⟩
    · rw [if_neg (by omega)]
      have hrec := ih (stepEv s e) (by omega) hes
      omega
    · rw [if_pos heq]
      have hrec := ih (stepEv s e) (by omega) hes
      omega

/-- C10: the reconnect policy.  An abnormal close (code ≠ 1000) with an
active token, no pending timer and fewer than 5 attempts schedules the
(k = attempts+1)-th reconnect after exactly `1000 * 2 ^ (k - 1)`
milliseconds (conjunct 1); a close with code 1000 schedules nothing
(conjunct 2); a close after the token was cleared schedules nothing
(conjunct 3); and along any event trace without a successful open,
starting from a fresh counter, at most 5 reconnects are ever scheduled
(conjunct 4). -/
theorem c10_reconnect_policy :
    (∀ (s : RState) (code : Nat),
        s.timeoutDelay = none → s.activeToken ≠ none → code ≠ 1000 →
        s.attempts < maxReconnectAttempts →
        (onClose code s).attempts = s.attempts + 1
        ∧ (onClose code s).timeoutDelay
            = some (reconnectDelay * 2 ^ s.attempts))
    ∧ (∀ s : RState, (onClose 1000 s).timeoutDelay = s.timeoutDelay
        ∧ (onClose 1000 s).attempts = s.attempts)
    ∧ (∀ (s : RState) (code : Nat), s.activeToken = none →
        (onClose code s).timeoutDelay = s.timeoutDelay
        ∧ (onClose code s).attempts = s.attempts)
    ∧ (∀ (s : RState) (evs : List SockEv), s.attempts = 0 →
        (∀ e ∈ evs, e ≠ SockEv.sockOpen) →
        countScheduled s evs ≤ maxReconnectAttempts) := by
  refine ⟨?_, ?_, ?_, ?_⟩
  · intro s code ht ha hc hlt
    rw [onClose, if_neg ha, if_pos ⟨hc, hlt⟩, scheduleReconnect,
        if_neg (by simp [ht, ha])]
    exact ⟨rfl, rfl⟩
  · intro s
    rw [onClose]
    split
    · exact ⟨rfl, rfl⟩
    · rw [if_neg (fun h => h.1 rfl)]
      exact ⟨rfl, rfl⟩
  · intro s code ha
    rw [onClose, if_pos ha]
    exact ⟨rfl, rfl⟩
  · intro s evs h0 hno
    have := countScheduled_le evs s (by omega) hno
    omega

/-- Witness for C10 at concrete states and a concrete six-close trace. -/
theorem c10_reconnect_policy_witness :
    (onClose 1006
        { socket := none, activeToken := some "tok"
          status := ConnectionStatus.connected, attempts := 0
          timeoutDelay := none }).attempts = 1
    ∧ (onClose 1006
        { socket := none, activeToken := some "tok"
          status := ConnectionStatus.connected, attempts := 0
          timeoutDelay := none }).timeoutDelay
      = some (reconnectDelay * 2 ^ 0)
    ∧ (onClose 1000
        { socket := none, activeToken := some "tok"
          status := ConnectionStatus.connected, attempts := 0
          timeoutDelay := none }).timeoutDelay = none
    ∧ (onClose 1006
        { socket := none, activeToken := none
          status := ConnectionStatus.disconnected, attempts := 3
          timeoutDelay := none }).attempts = 3
    ∧ countScheduled
        { socket := none, activeToken := some "tok"
          status := ConnectionStatus.connected, attempts := 0
          timeoutDelay := none }
        [SockEv.close 1006, SockEv.timer, SockEv.close 1006, SockEv.timer,
         SockEv.close 1006, SockEv.timer, SockEv.close 1006, SockEv.timer,
         SockEv.close 1006, SockEv.timer, SockEv.close 1006]
      ≤ maxReconnectAttempts :=
  ⟨(c10_reconnect_policy.1
      { socket := none, activeToken := some "tok"
        status := ConnectionStatus.connected, attempts := 0
        timeoutDelay := none } 1006 rfl (by decide) (by decide) (by decide)).1,
   (c10_reconnect_policy.1
      { socket := none, activeToken := some "tok"
        status := ConnectionStatus.connected, attempts := 0
        timeoutDelay := none } 1006 rfl (by decide) (by decide) (by decide)).2,
   (c10_reconnect_policy.2.1
      { socket := none, activeToken := some "tok"
        status := ConnectionStatus.connected, attempts := 0
        timeoutDelay := none }).1,
   (c10_reconnect_policy.2.2.1
      { socket := none, activeToken := none
        status := ConnectionStatus.disconnected, attempts := 3
        timeoutDelay := none } 1006 rfl).2,
   c10_reconnect_policy.2.2.2
      { socket := none, activeToken := some "tok"
        status := ConnectionStatus.connected, attempts := 0
        timeoutDelay := none }
      [SockEv.close 1006, SockEv.timer, SockEv.close 1006, SockEv.timer,
       SockEv.close 1006, SockEv.timer, SockEv.close 1006, SockEv.timer,
       SockEv.close 1006, SockEv.timer, SockEv.close 1006]
      rfl (by decide)⟩

end Switchboard
